import Mathlib

set_option maxRecDepth 4000
set_option maxHeartbeats 1000000

/-!
Verification of the spatial binning and forecast-aggregation core of the
eq-forecaster repository.

The static bin registry (`binsData`, with a second variant `binsData2`) is
embedded from the `BinPage` component, which hard-codes the table; the
year-validation logic (`handleYearSubmit`) is embedded from the
`Forecasting` page. The spatial index (`assign`), risk classifier
(`classifyRisk`) and forecast aggregator (`forecast`) live in the backend
service, whose implementation files are not part of the sources at hand;
they are modelled from the specification (sections 4.2-4.4), as marked in
their doc comments.

Coordinates, magnitudes and areas are modelled as rationals: the source
values are all short decimal literals, exactly representable.
-/

namespace EqForecast

/-- Bin record, embedded from the `binsData` table of the BinPage component.
The source stores `bounds` as a 4-element array `[lon_min, lon_max, lat_min,
lat_max]` (the page renders `SW: (bounds[0], bounds[2])`,
`NE: (bounds[1], bounds[3])`); here the four entries are named fields. -/
structure Bin where
  id : Nat
  lon_min : ℚ
  lon_max : ℚ
  lat_min : ℚ
  lat_max : ℚ
  width : ℚ
  height : ℚ
  area : ℚ
  center_lat : ℚ
  center_lon : ℚ
  locations : List String
deriving DecidableEq

/-- Bin 0 of the first `binsData` variant. -/
@[simp] def bin0 : Bin :=
  ⟨0, 119.475, 122.65, 7.0, 12.0, 3.175, 5.0, 15.875, 9.5, 121.0625,
   ["Southern Mindoro", "Panay (Aklan, Antique, Iloilo)",
    "Western Negros (Occidental/Oriental)"]⟩

/-- Bin 1 of the first `binsData` variant. -/
@[simp] def bin1 : Bin :=
  ⟨1, 125.825, 127.4125, 2.0, 4.5, 1.5875, 2.5, 3.97, 3.25, 126.61875,
   ["Celebes Sea",
    "Southern Mindanao offshore (Sarangani Bay, Davao Occidental)",
    "Border near Indonesia"]⟩

/-- Bin 2 of the first `binsData` variant. -/
@[simp] def bin2 : Bin :=
  ⟨2, 127.4125, 129.0, 2.0, 4.5, 1.5875, 2.5, 3.97, 3.25, 128.20625,
   ["Celebes Sea–Pacific transition (offshore southeast of Mindanao)"]⟩

/-- Bin 3 of the first `binsData` variant. -/
@[simp] def bin3 : Bin :=
  ⟨3, 125.825, 127.4125, 4.5, 7.0, 1.5875, 2.5, 3.97, 5.75, 126.61875,
   ["Davao Region (Davao Oriental, Occidental, City)", "Compostela Valley",
    "Parts of Sarangani"]⟩

/-- Bin 4 of the first `binsData` variant. -/
@[simp] def bin4 : Bin :=
  ⟨4, 124.2375, 125.825, 7.0, 9.5, 1.5875, 2.5, 3.97, 8.25, 125.03125,
   ["Bukidnon", "Misamis Oriental", "Agusan del Sur",
    "Northern Davao del Norte", "Northern Cotabato"]⟩

/-- Bin 5 of the first `binsData` variant. -/
@[simp] def bin5 : Bin :=
  ⟨5, 124.2375, 125.825, 9.5, 12.0, 1.5875, 2.5, 3.97, 10.75, 125.03125,
   ["Northern Agusan del Norte", "Northern Surigao del Sur",
    "Northern Mindanao uplands", "Southern Leyte", "Eastern Samar",
    "Dinagat Islands", "Samar"]⟩

/-- Bin 6 of the first `binsData` variant. -/
@[simp] def bin6 : Bin :=
  ⟨6, 125.825, 127.4125, 7.0, 9.5, 1.5875, 2.5, 3.97, 8.25, 126.61875,
   ["Surigao del Sur", "Davao Oriental", "Agusan del Sur",
    "Eastern Mindanao offshore (Philippine Trench)"]⟩

/-- Bin 7 of the first `binsData` variant. -/
@[simp] def bin7 : Bin :=
  ⟨7, 119.475, 121.0625, 12.0, 14.5, 1.5875, 2.5, 3.97, 13.25, 120.26875,
   ["Southern Luzon (Mindoro, Marinduque, Batangas, Quezon)",
    "Northern Palawan", "Dasmarinas", "Muntilupa"]⟩

/-- Bin 8 of the first `binsData` variant. -/
@[simp] def bin8 : Bin :=
  ⟨8, 119.475, 121.0625, 14.5, 17.0, 1.5875, 2.5, 3.97, 15.75, 120.26875,
   ["Central Luzon (Zambales, Bataan, Pampanga, Nueva Ecija, Pangasinan, Tarlac, Baguio, Cabanatuan)",
    "Metro Manila edge", "Olangapo", "Bataan", "Mariveles", "Benguet",
    "La Union"]⟩

/-- Bin 9 of the first `binsData` variant. -/
@[simp] def bin9 : Bin :=
  ⟨9, 121.0625, 122.65, 14.5, 17.0, 1.5875, 2.5, 3.97, 15.75, 121.85625,
   ["Quezon Province", "Pasig", "Taguig", "Rizal", "Tanay", "Antipolo",
    "Dona Remedios Trinidad", "Montalbon", "Quirino", "Aurora",
    "Camarines Norte", "Polillo Islands"]⟩

/-- Bin 10 of the first `binsData` variant. -/
@[simp] def bin10 : Bin :=
  ⟨10, 119.475, 121.0625, 17.0, 19.5, 1.5875, 2.5, 3.97, 18.25, 120.26875,
   ["Ilocos Region (Ilocos Norte, Ilocos Sur, La Union, Pangasinan)",
    "Abra", "Vigan"]⟩

/-- Bin 11 of the first `binsData` variant. -/
@[simp] def bin11 : Bin :=
  ⟨11, 121.0625, 122.65, 17.0, 19.5, 1.5875, 2.5, 3.97, 18.25, 121.85625,
   ["Nueva Vizcaya", "Quirino", "Southern Isabela", "Tuguegarao", "Ilagan",
    "Apayao", "Kalinga"]⟩

/-- Bin 12 of the first `binsData` variant. -/
@[simp] def bin12 : Bin :=
  ⟨12, 119.475, 121.0625, 19.5, 22.0, 1.5875, 2.5, 3.97, 20.75, 120.26875,
   ["Northern Luzon (Cagayan, Apayao, Mountain Province, Kalinga)",
    "Batanes offshore"]⟩

/-- Bin 13 of the first `binsData` variant. -/
@[simp] def bin13 : Bin :=
  ⟨13, 121.0625, 122.65, 19.5, 22.0, 1.5875, 2.5, 3.97, 20.75, 121.85625,
   ["Eastern Cagayan Valley", "Batanes", "Northern Isabela",
    "Cagayan up to Babuyan Islands"]⟩

/-- Bin 14 of the first `binsData` variant. -/
@[simp] def bin14 : Bin :=
  ⟨14, 124.2375, 125.825, 12.0, 14.5, 1.5875, 2.5, 3.97, 13.25, 125.03125,
   ["Samar", "Northern Samar", "Masbate", "Sorsogon", "Albay",
    "Catanduanes"]⟩

/-- Bin 15 of the first `binsData` variant. -/
@[simp] def bin15 : Bin :=
  ⟨15, 127.4125, 129.0, 4.5, 9.5, 1.5875, 5.0, 7.94, 7.0, 128.20625,
   ["Philippine Trench (east of Mindanao)", "Offshore Davao–Caraga"]⟩

/-- Bin 16 of the first `binsData` variant. -/
@[simp] def bin16 : Bin :=
  ⟨16, 122.65, 124.2375, 7.0, 12.0, 1.5875, 5.0, 7.94, 9.5, 123.44375,
   ["Central–Eastern Visayas (Leyte, Samar, Biliran, Cebu, Bohol, Zambonga del Sur, Lanao del Norte, Misamis Occidental, Parts of Zambonga del Norte)",
    "Northern Mindanao coast"]⟩

/-- Bin 17 of the first `binsData` variant. -/
@[simp] def bin17 : Bin :=
  ⟨17, 121.0625, 124.2375, 12.0, 14.5, 3.175, 2.5, 7.94, 13.25, 122.65,
   ["Bicol Region (Camarines Norte, Camarines Sur, Albay)",
    "Sibuyan Island", "Parts of Masbate", "Romblon", " Sorosogon",
    "Oriental Mindoro", "Marinduque", "Catanduanes", "Parts of Batangas",
    "Calamba Laguna", "Quezon"]⟩

/-- Bin 18 of the first `binsData` variant. -/
@[simp] def bin18 : Bin :=
  ⟨18, 125.825, 129.0, 12.0, 22.0, 3.175, 10.0, 31.75, 17.0, 127.4125,
   ["Philippine Trench (east of Luzon & Samar)",
    "Deep Pacific offshore area"]⟩

/-- Bin 19 of the first `binsData` variant. -/
@[simp] def bin19 : Bin :=
  ⟨19, 124.2375, 125.825, 2.0, 7.0, 1.5875, 5.0, 7.94, 4.5, 125.03125,
   ["Southern Mindanao (General Santos, South Cotabato, Sarangani, Sultan Kudarat, Davao Occidental, Davao del Sur, Maguindanao del Sur)"]⟩

/-- Bin 20 of the first `binsData` variant. -/
@[simp] def bin20 : Bin :=
  ⟨20, 125.825, 129.0, 9.5, 12.0, 3.175, 2.5, 7.94, 10.75, 127.4125,
   ["Eastern Visayas offshore (Samar, Leyte east coast)", "Siargao",
    "Socorro", "Philippine Trench (Tacloban–Borongan area)"]⟩

/-- Bin 21 of the first `binsData` variant. -/
@[simp] def bin21 : Bin :=
  ⟨21, 122.65, 125.825, 14.5, 22.0, 3.175, 7.5, 23.81, 18.25, 124.2375,
   ["Bicol Region (Camarines Sur, Albay, Catanduanes)",
    "Eastern Luzon (Quezon, Aurora, Isabela coastal areas)"]⟩

/-- Bin 22 of the first `binsData` variant. -/
@[simp] def bin22 : Bin :=
  ⟨22, 116.3, 119.475, 7.0, 22.0, 3.175, 15.0, 47.625, 14.5, 117.8875,
   ["Palawan", "Mindoro", "Calamian Islands", "Balabac",
    "Spratly Islands vicinity (West Philippine Sea)"]⟩

/-- Bin 23 of the first `binsData` variant. -/
@[simp] def bin23 : Bin :=
  ⟨23, 116.3, 124.2375, 2.0, 7.0, 7.9375, 5.0, 39.6875, 4.5, 120.26875,
   ["Sulu Archipelago (Tawi-Tawi, Basilan, Jolo)", "Zamboanga City ",
    "Celebes Sea"]⟩

/-- The static bin registry: the first `binsData` table of the BinPage
component, in source order (ids 0 through 23 ascending). -/
def binsData : List Bin :=
  [bin0, bin1, bin2, bin3, bin4, bin5, bin6, bin7, bin8, bin9, bin10,
   bin11, bin12, bin13, bin14, bin15, bin16, bin17, bin18, bin19, bin20,
   bin21, bin22, bin23]

/-- The second `binsData` variant in the BinPage sources ("Hardcoded bins
with location information"): same geometry, different location labels.
Stated in full so that the agreement of the two variants is a checked fact,
not an assumption. -/
def binsData2 : List Bin :=
  [⟨0, 119.475, 122.65, 7.0, 12.0, 3.175, 5.0, 15.875, 9.5, 121.0625,
    ["Palawan (northern part)", "Mindoro", "Romblon"]⟩,
   ⟨1, 125.825, 127.4125, 2.0, 4.5, 1.5875, 2.5, 3.97, 3.25, 126.61875,
    ["North Maluku", "Halmahera Sea"]⟩,
   ⟨2, 127.4125, 129.0, 2.0, 4.5, 1.5875, 2.5, 3.97, 3.25, 128.20625,
    ["Maluku Sea", "Eastern Halmahera"]⟩,
   ⟨3, 125.825, 127.4125, 4.5, 7.0, 1.5875, 2.5, 3.97, 5.75, 126.61875,
    ["Sangihe Islands", "North Sulawesi Sea"]⟩,
   ⟨4, 124.2375, 125.825, 7.0, 9.5, 1.5875, 2.5, 3.97, 8.25, 125.03125,
    ["Northern Mindanao", "Camiguin", "Bohol Sea"]⟩,
   ⟨5, 124.2375, 125.825, 9.5, 12.0, 1.5875, 2.5, 3.97, 10.75, 125.03125,
    ["Cebu", "Bohol", "Central Visayas"]⟩,
   ⟨6, 125.825, 127.4125, 7.0, 9.5, 1.5875, 2.5, 3.97, 8.25, 126.61875,
    ["Davao Gulf", "Mindanao Sea", "Surigao"]⟩,
   ⟨7, 119.475, 121.0625, 12.0, 14.5, 1.5875, 2.5, 3.97, 13.25, 120.26875,
    ["Southern Luzon", "Mindoro Strait", "Batangas"]⟩,
   ⟨8, 119.475, 121.0625, 14.5, 17.0, 1.5875, 2.5, 3.97, 15.75, 120.26875,
    ["Central Luzon", "Manila Bay", "Zambales"]⟩,
   ⟨9, 121.0625, 122.65, 14.5, 17.0, 1.5875, 2.5, 3.97, 15.75, 121.85625,
    ["Metro Manila", "Rizal", "Laguna", "Quezon"]⟩,
   ⟨10, 119.475, 121.0625, 17.0, 19.5, 1.5875, 2.5, 3.97, 18.25, 120.26875,
    ["Ilocos", "La Union", "Pangasinan"]⟩,
   ⟨11, 121.0625, 122.65, 17.0, 19.5, 1.5875, 2.5, 3.97, 18.25, 121.85625,
    ["Cagayan Valley", "Nueva Ecija", "Tarlac"]⟩,
   ⟨12, 119.475, 121.0625, 19.5, 22.0, 1.5875, 2.5, 3.97, 20.75, 120.26875,
    ["Northern Luzon", "Cagayan", "Ilocos Norte"]⟩,
   ⟨13, 121.0625, 122.65, 19.5, 22.0, 1.5875, 2.5, 3.97, 20.75, 121.85625,
    ["Cagayan", "Isabela", "Kalinga"]⟩,
   ⟨14, 124.2375, 125.825, 12.0, 14.5, 1.5875, 2.5, 3.97, 13.25, 125.03125,
    ["Samar", "Eastern Visayas", "Leyte Gulf"]⟩,
   ⟨15, 127.4125, 129.0, 4.5, 9.5, 1.5875, 5.0, 7.94, 7.0, 128.20625,
    ["North Maluku", "Celebes Sea"]⟩,
   ⟨16, 122.65, 124.2375, 7.0, 12.0, 1.5875, 5.0, 7.94, 9.5, 123.44375,
    ["Negros", "Siquijor", "Bohol Sea"]⟩,
   ⟨17, 121.0625, 124.2375, 12.0, 14.5, 3.175, 2.5, 7.94, 13.25, 122.65,
    ["Bicol Peninsula", "Masbate", "Albay"]⟩,
   ⟨18, 125.825, 129.0, 12.0, 22.0, 3.175, 10.0, 31.75, 17.0, 127.4125,
    ["Philippine Sea", "Pacific Ocean"]⟩,
   ⟨19, 124.2375, 125.825, 2.0, 7.0, 1.5875, 5.0, 7.94, 4.5, 125.03125,
    ["North Sulawesi", "Celebes Sea"]⟩,
   ⟨20, 125.825, 129.0, 9.5, 12.0, 3.175, 2.5, 7.94, 10.75, 127.4125,
    ["Mindanao Sea", "Eastern Mindanao"]⟩,
   ⟨21, 122.65, 125.825, 14.5, 22.0, 3.175, 7.5, 23.81, 18.25, 124.2375,
    ["Northern Philippines Sea", "Luzon Strait"]⟩,
   ⟨22, 116.3, 119.475, 7.0, 22.0, 3.175, 15.0, 47.625, 14.5, 117.8875,
    ["South China Sea", "Western Philippines"]⟩,
   ⟨23, 116.3, 124.2375, 2.0, 7.0, 7.9375, 5.0, 39.6875, 4.5, 120.26875,
    ["Sulu Sea", "Southern Philippines", "Palawan (southern)"]⟩]

/-- Agreement of two bins on every geometric field (everything except the
informational `locations` list). -/
def geomAgree (a b : Bin) : Prop :=
  a.id = b.id ∧ a.lon_min = b.lon_min ∧ a.lon_max = b.lon_max ∧
  a.lat_min = b.lat_min ∧ a.lat_max = b.lat_max ∧ a.width = b.width ∧
  a.height = b.height ∧ a.area = b.area ∧ a.center_lat = b.center_lat ∧
  a.center_lon = b.center_lon

instance (a b : Bin) : Decidable (geomAgree a b) := by
  unfold geomAgree
  exact inferInstance

/-- Tolerance of the order of double-precision rounding error at these
magnitudes; used to state the "within floating-point tolerance" claim. -/
def floatTolerance : ℚ := 1 / 1000000000

/-- Modelled from the spec: the containment test of the Spatial Index
(§4.2) — the backend implementation is not among the sources at hand. Both
comparisons are inclusive: `lon_min ≤ lon ≤ lon_max` and
`lat_min ≤ lat ≤ lat_max`. -/
def containsPoint (b : Bin) (lat lon : ℚ) : Prop :=
  b.lon_min ≤ lon ∧ lon ≤ b.lon_max ∧ b.lat_min ≤ lat ∧ lat ≤ b.lat_max

instance (b : Bin) (lat lon : ℚ) : Decidable (containsPoint b lat lon) := by
  unfold containsPoint
  exact inferInstance

/-- Modelled from the spec: the scan of §4.2 over all bins whose bounds
contain the point. -/
def matchingBins (lat lon : ℚ) : List Bin :=
  binsData.filter (fun b => decide (containsPoint b lat lon))

/-- Tie-break order of §4.2: smaller `area` first, then smaller `id`. -/
def keyLe (a b : Bin) : Prop :=
  a.area < b.area ∨ (a.area = b.area ∧ a.id ≤ b.id)

/-- Modelled from the spec: one step of the §4.2 tie-break — keep the
candidate with the smaller area, breaking area ties by the smaller id. -/
def smallerBin (a c : Bin) : Bin :=
  if c.area < a.area ∨ (c.area = a.area ∧ c.id < a.id) then c else a

/-- Modelled from the spec: `assign(lat, lon)` of §4.2. Scans the registry
for bins containing the point; `none` models the Unassigned outcome; with
one or more matches the §4.2 tie-break (smallest area, then smallest id)
selects the returned bin id. -/
def assign (lat lon : ℚ) : Option Nat :=
  match matchingBins lat lon with
  | [] => none
  | c :: cs => some ((cs.foldl smallerBin c).id)

/-- Risk tiers of the fixed ordered enumeration in §3. -/
inductive RiskLevel
  | low
  | medium
  | high
  | critical
deriving DecidableEq

/-- Modelled from the spec: the risk classifier of §4.4 step 3 — fixed
ascending thresholds, each tier inclusive on its lower bound; the backend
implementation is not among the sources at hand (the mock rows in the
Forecasting page, 4.2→low, 5.8→medium, 6.5→high, 7.2→critical, are
consistent with it). -/
def classifyRisk (m : ℚ) : RiskLevel :=
  if m < 5 then RiskLevel.low
  else if m < 6 then RiskLevel.medium
  else if m < 7 then RiskLevel.high
  else RiskLevel.critical

/-- Outcome of submitting a forecast request: the spec names the rejection
outcome `InvalidRequest` (§6, §7). -/
inductive SubmitOutcome
  | accepted
  | invalidRequest
deriving DecidableEq

/-- Embedded from `handleYearSubmit` in the Forecasting page:
`if (inputYear && inputYear >= 2020 && inputYear <= 2030)` generate, else
error. A JS number is truthy exactly when it is nonzero (and not NaN), so
the guard is modelled as `inputYear ≠ 0 ∧ 2020 ≤ inputYear ∧
inputYear ≤ 2030`. -/
def handleYearSubmit (inputYear : ℤ) : SubmitOutcome :=
  if inputYear ≠ 0 ∧ 2020 ≤ inputYear ∧ inputYear ≤ 2030 then
    SubmitOutcome.accepted
  else
    SubmitOutcome.invalidRequest

/-- Historical statistics for one (bin, year), per §4.3: no events is
represented by an absent maximum and a zero count, not an error. -/
structure HistStats where
  max_magnitude : Option ℚ
  count : Nat

/-- Opaque output of the forecasting-model collaborator, per §6. -/
structure Prediction where
  max_magnitude : ℚ
  num_earthquakes : Nat

/-- Normalized forecast output for one (bin, year), per §3. -/
structure ForecastRecord where
  bin_id : Nat
  max_magnitude : ℚ
  num_earthquakes : Nat
  risk_level : RiskLevel
deriving DecidableEq

/-- Modelled from the spec: one aggregation step of §4.4 — use the model
prediction when available, otherwise fall back to historical stats alone
(a bin with no data emits `max_magnitude = 0`); the risk level is always
derived from the emitted magnitude. -/
def recordForBin (b : Bin) (pred : Option Prediction) (s : HistStats) : ForecastRecord :=
  match pred with
  | some p => ⟨b.id, p.max_magnitude, p.num_earthquakes, classifyRisk p.max_magnitude⟩
  | none => ⟨b.id, s.max_magnitude.getD 0, s.count, classifyRisk (s.max_magnitude.getD 0)⟩

/-- Modelled from the spec: the historical-stats-only output of §4.4, the
degraded mode used when the forecasting model is missing or failing. -/
def historicalForecast (stats : Nat → ℤ → HistStats) (year : ℤ) : List ForecastRecord :=
  binsData.map (fun b => recordForBin b none (stats b.id year))

/-- Modelled from the spec: `forecast(year)` of §4.4 — one record per
registry bin in registry order, parametrized by the forecasting-model
collaborator (`predict`, whose `none` models failure or timeout) and the
Historical Store (`stats`). -/
def forecast (predict : Nat → ℤ → Option Prediction) (stats : Nat → ℤ → HistStats)
    (year : ℤ) : List ForecastRecord :=
  binsData.map (fun b => recordForBin b (predict b.id year) (stats b.id year))

/-- Membership of bin 0 in the registry. -/
theorem bin0_mem : bin0 ∈ binsData := by simp [binsData]

/-- Membership of bin 1 in the registry. -/
theorem bin1_mem : bin1 ∈ binsData := by simp [binsData]

/-- Membership of bin 2 in the registry. -/
theorem bin2_mem : bin2 ∈ binsData := by simp [binsData]

/-- Membership of bin 3 in the registry. -/
theorem bin3_mem : bin3 ∈ binsData := by simp [binsData]

/-- Membership of bin 4 in the registry. -/
theorem bin4_mem : bin4 ∈ binsData := by simp [binsData]

/-- Membership of bin 5 in the registry. -/
theorem bin5_mem : bin5 ∈ binsData := by simp [binsData]

/-- Membership of bin 6 in the registry. -/
theorem bin6_mem : bin6 ∈ binsData := by simp [binsData]

/-- Membership of bin 7 in the registry. -/
theorem bin7_mem : bin7 ∈ binsData := by simp [binsData]

/-- Membership of bin 8 in the registry. -/
theorem bin8_mem : bin8 ∈ binsData := by simp [binsData]

/-- Membership of bin 9 in the registry. -/
theorem bin9_mem : bin9 ∈ binsData := by simp [binsData]

/-- Membership of bin 10 in the registry. -/
theorem bin10_mem : bin10 ∈ binsData := by simp [binsData]

/-- Membership of bin 11 in the registry. -/
theorem bin11_mem : bin11 ∈ binsData := by simp [binsData]

/-- Membership of bin 12 in the registry. -/
theorem bin12_mem : bin12 ∈ binsData := by simp [binsData]

/-- Membership of bin 13 in the registry. -/
theorem bin13_mem : bin13 ∈ binsData := by simp [binsData]

/-- Membership of bin 14 in the registry. -/
theorem bin14_mem : bin14 ∈ binsData := by simp [binsData]

/-- Membership of bin 15 in the registry. -/
theorem bin15_mem : bin15 ∈ binsData := by simp [binsData]

/-- Membership of bin 16 in the registry. -/
theorem bin16_mem : bin16 ∈ binsData := by simp [binsData]

/-- Membership of bin 17 in the registry. -/
theorem bin17_mem : bin17 ∈ binsData := by simp [binsData]

/-- Membership of bin 18 in the registry. -/
theorem bin18_mem : bin18 ∈ binsData := by simp [binsData]

/-- Membership of bin 19 in the registry. -/
theorem bin19_mem : bin19 ∈ binsData := by simp [binsData]

/-- Membership of bin 20 in the registry. -/
theorem bin20_mem : bin20 ∈ binsData := by simp [binsData]

/-- Membership of bin 21 in the registry. -/
theorem bin21_mem : bin21 ∈ binsData := by simp [binsData]

/-- Membership of bin 22 in the registry. -/
theorem bin22_mem : bin22 ∈ binsData := by simp [binsData]

/-- Membership of bin 23 in the registry. -/
theorem bin23_mem : bin23 ∈ binsData := by simp [binsData]

/-- Claim C3: for every bin in the static registry table, the stored center
equals the midpoint of its bounds in both coordinates. -/
theorem center_eq_midpoint :
    ∀ b ∈ binsData,
      b.center_lon = (b.lon_min + b.lon_max) / 2 ∧
      b.center_lat = (b.lat_min + b.lat_max) / 2 := by
  intro b hb
  fin_cases hb <;> constructor <;> norm_num

/-- Witness for C3: the midpoint invariant evaluated on bin 0. -/
theorem center_eq_midpoint_witness :
    bin0.center_lon = (bin0.lon_min + bin0.lon_max) / 2 ∧
    bin0.center_lat = (bin0.lat_min + bin0.lat_max) / 2 :=
  center_eq_midpoint bin0 (by simp [binsData])

/-- Counterexample for C4: bin 1 stores `area = 3.97` while the product of
its side lengths is `1.5875 × 2.5 = 3.96875`; the difference of `1/800`
(`0.00125`) exceeds any floating-point rounding tolerance, so the stored
area does not equal the product of the side lengths within floating-point
tolerance. -/
theorem area_fp_counterexample :
    bin1 ∈ binsData ∧
    bin1.area - (bin1.lon_max - bin1.lon_min) * (bin1.lat_max - bin1.lat_min) = 1 / 800 ∧
    ¬ |bin1.area - (bin1.lon_max - bin1.lon_min) * (bin1.lat_max - bin1.lat_min)|
        ≤ floatTolerance := by
  have h : bin1.area - (bin1.lon_max - bin1.lon_min) * (bin1.lat_max - bin1.lat_min)
      = 1 / 800 := by norm_num
  refine ⟨by simp [binsData], h, ?_⟩
  rw [h, abs_of_pos (by norm_num), floatTolerance]
  norm_num

/-- Claim C4 (amended): for every bin in the static registry table, the
stored area equals the product of its side lengths to within `1/200`
(`0.005`): the stored areas are the products rounded to at most two decimal
places, not floating-point-exact values. -/
theorem area_eq_product_rounded :
    ∀ b ∈ binsData,
      |b.area - (b.lon_max - b.lon_min) * (b.lat_max - b.lat_min)| ≤ 1 / 200 := by
  intro b hb
  fin_cases hb <;>
    · rw [abs_le]
      constructor <;> norm_num

/-- Witness for the amended C4: the rounding bound evaluated on bin 1. -/
theorem area_eq_product_rounded_witness :
    |bin1.area - (bin1.lon_max - bin1.lon_min) * (bin1.lat_max - bin1.lat_min)| ≤ 1 / 200 :=
  area_eq_product_rounded bin1 (by simp [binsData])

/-- Claim C8: the two static bin-table variants agree on every geometric
field for each of the 24 positions (same ids, bounds, width, height, area
and center), and they do differ, namely in the informational `locations`
lists. -/
theorem binsData_variants_agree :
    List.Forall₂ geomAgree binsData binsData2 ∧
    binsData.map (fun b => b.locations) ≠ binsData2.map (fun b => b.locations) := by
  constructor
  · rw [binsData, binsData2]
    repeat refine List.Forall₂.cons ?_ ?_
    all_goals first
      | exact List.Forall₂.nil
      | norm_num [geomAgree]
  · simp [binsData, binsData2]

/-- Claim C10: the registry has the 24 ids 0 through 23 in order (hence
unique); every bounds rectangle is non-degenerate, and the stored width and
height equal the side lengths exactly. -/
theorem bins_wellformed :
    binsData.map (fun b => b.id) = List.range 24 ∧
    ∀ b ∈ binsData,
      b.lon_min < b.lon_max ∧ b.lat_min < b.lat_max ∧
      b.width = b.lon_max - b.lon_min ∧ b.height = b.lat_max - b.lat_min := by
  constructor
  · with_unfolding_all decide
  · intro b hb
    fin_cases hb <;> refine ⟨?_, ?_, ?_, ?_⟩ <;> norm_num

/-- Witness for C10: the well-formedness facts evaluated on bin 23. -/
theorem bins_wellformed_witness :
    bin23.lon_min < bin23.lon_max ∧ bin23.lat_min < bin23.lat_max ∧
    bin23.width = bin23.lon_max - bin23.lon_min ∧
    bin23.height = bin23.lat_max - bin23.lat_min :=
  bins_wellformed.2 bin23 (by simp [binsData])

/-- Reflexivity of the tie-break order. -/
theorem keyLe_refl (a : Bin) : keyLe a a :=
  Or.inr ⟨rfl, le_refl _⟩

/-- Transitivity of the tie-break order. -/
theorem keyLe_trans {a b c : Bin} (h1 : keyLe a b) (h2 : keyLe b c) : keyLe a c := by
  rcases h1 with h1 | ⟨e1, l1⟩ <;> rcases h2 with h2 | ⟨e2, l2⟩
  · exact Or.inl (h1.trans h2)
  · exact Or.inl (by rw [← e2]; exact h1)
  · exact Or.inl (by rw [e1]; exact h2)
  · exact Or.inr ⟨e1.trans e2, l1.trans l2⟩

/-- Two bins below each other in the tie-break order have the same id. -/
theorem keyLe_antisymm_id {a b : Bin} (h1 : keyLe a b) (h2 : keyLe b a) :
    a.id = b.id := by
  rcases h1 with h1 | ⟨e1, l1⟩ <;> rcases h2 with h2 | ⟨e2, l2⟩
  · exact (lt_asymm h1 h2).elim
  · exact absurd h1 (by rw [e2]; exact lt_irrefl _)
  · exact absurd h2 (by rw [e1]; exact lt_irrefl _)
  · omega

/-- The tie-break step returns one of its two arguments. -/
theorem smallerBin_cases (a c : Bin) : smallerBin a c = a ∨ smallerBin a c = c := by
  unfold smallerBin
  split_ifs <;> simp

/-- The tie-break step is below its first argument. -/
theorem keyLe_smallerBin_left (a c : Bin) : keyLe (smallerBin a c) a := by
  unfold smallerBin
  split_ifs with h
  · rcases h with h | ⟨e, l⟩
    · exact Or.inl h
    · exact Or.inr ⟨e, le_of_lt l⟩
  · exact keyLe_refl a

/-- The tie-break step is below its second argument. -/
theorem keyLe_smallerBin_right (a c : Bin) : keyLe (smallerBin a c) c := by
  unfold smallerBin
  split_ifs with h
  · exact keyLe_refl c
  · push_neg at h
    rcases eq_or_lt_of_le h.1 with e | l
    · exact Or.inr ⟨e, h.2 e.symm⟩
    · exact Or.inl l

/-- Folding the tie-break step over a candidate list yields an element of
the candidates (or the seed) that is minimal for the tie-break order. -/
theorem foldl_smallerBin_spec (cs : List Bin) (a : Bin) :
    (cs.foldl smallerBin a = a ∨ cs.foldl smallerBin a ∈ cs) ∧
    keyLe (cs.foldl smallerBin a) a ∧
    ∀ m ∈ cs, keyLe (cs.foldl smallerBin a) m := by
  induction cs generalizing a with
  | nil => exact ⟨Or.inl rfl, keyLe_refl a, by simp⟩
  | cons c cs ih =>
    obtain ⟨hmem, hle, hall⟩ := ih (smallerBin a c)
    rw [List.foldl_cons]
    refine ⟨?_, ?_, ?_⟩
    · rcases hmem with h | h
      · rcases smallerBin_cases a c with h2 | h2
        · exact Or.inl (h.trans h2)
        · exact Or.inr (by rw [h, h2]; exact List.mem_cons_self _ _)
      · exact Or.inr (List.mem_cons_of_mem _ h)
    · exact keyLe_trans hle (keyLe_smallerBin_left a c)
    · intro m hm
      rcases List.mem_cons.mp hm with rfl | hm
      · exact keyLe_trans hle (keyLe_smallerBin_right a m)
      · exact hall m hm

/-- Claim C2: `assign` returns Unassigned (`none`) when no bin contains the
point, the unique match when exactly one does, and with several matches the
id of a match that is minimal for the tie-break order — smallest area,
remaining ties broken by smallest id. -/
theorem assign_tiebreak (lat lon : ℚ) :
    (matchingBins lat lon = [] → assign lat lon = none) ∧
    (∀ b, matchingBins lat lon = [b] → assign lat lon = some b.id) ∧
    (∀ b, b ∈ matchingBins lat lon →
      (∀ m ∈ matchingBins lat lon, keyLe b m) → assign lat lon = some b.id) := by
  refine ⟨?_, ?_, ?_⟩
  · intro h
    unfold assign
    rw [h]
  · intro b h
    unfold assign
    rw [h]
    rfl
  · intro b hb hmin
    unfold assign
    cases hE : matchingBins lat lon with
    | nil => rw [hE] at hb; cases hb
    | cons c cs =>
      obtain ⟨hmem, hle, hall⟩ := foldl_smallerBin_spec cs c
      have hrmem : cs.foldl smallerBin c ∈ matchingBins lat lon := by
        rw [hE]
        rcases hmem with h | h
        · rw [h]; exact List.mem_cons_self _ _
        · exact List.mem_cons_of_mem _ h
      have h1 : keyLe b (cs.foldl smallerBin c) := hmin _ hrmem
      have h2 : keyLe (cs.foldl smallerBin c) b := by
        rw [hE] at hb
        rcases List.mem_cons.mp hb with rfl | hbb
        · exact hle
        · exact hall _ hbb
      exact congrArg some (keyLe_antisymm_id h2 h1)

/-- Witness for C2: the point (lat 9.5, lon 122.65) lies on the shared edge
of bin 0 (area 15.875) and bin 16 (area 7.94); `assign` returns the
smaller-area bin 16. -/
theorem assign_tiebreak_witness : assign 9.5 122.65 = some 16 := by
  have hb : bin16 ∈ matchingBins 9.5 122.65 := by
    rw [matchingBins]
    refine List.mem_filter.mpr ⟨bin16_mem, ?_⟩
    rw [decide_eq_true_eq]
    constructor
    · norm_num
    constructor
    · norm_num
    constructor
    · norm_num
    · norm_num
  have hmin : ∀ m ∈ matchingBins 9.5 122.65, keyLe bin16 m := by
    intro m hm
    obtain ⟨hmem, hcp⟩ := List.mem_filter.mp hm
    rw [decide_eq_true_eq] at hcp
    fin_cases hmem <;>
      first
        | (exfalso; revert hcp; norm_num [containsPoint]; done)
        | norm_num [keyLe]
  have h := (assign_tiebreak 9.5 122.65).2.2 bin16 hb hmin
  rw [h]
  norm_num

/-- Introduction helper for the containment predicate. -/
theorem containsPoint_intro {b : Bin} {lat lon : ℚ} (k1 : b.lon_min ≤ lon)
    (k2 : lon ≤ b.lon_max) (k3 : b.lat_min ≤ lat) (k4 : lat ≤ b.lat_max) :
    containsPoint b lat lon :=
  ⟨k1, k2, k3, k4⟩

/-- A covering bin for a point, packaged for the coverage case analysis. -/
theorem cover_of (b : Bin) (hb : b ∈ binsData) (lat lon : ℚ)
    (k1 : b.lon_min ≤ lon) (k2 : lon ≤ b.lon_max) (k3 : b.lat_min ≤ lat)
    (k4 : lat ≤ b.lat_max) :
    ∃ c ∈ binsData, containsPoint c lat lon :=
  ⟨b, hb, containsPoint_intro k1 k2 k3 k4⟩

/-- Every point of the overall rectangle `[116.3, 129] × [2, 22]` lies in
at least one registry bin: an explicit decomposition of the rectangle along
the grid lines of the table. -/
theorem exists_cover (lat lon : ℚ) (h1 : 116.3 ≤ lon) (h2 : lon ≤ 129)
    (h3 : 2 ≤ lat) (h4 : lat ≤ 22) :
    ∃ c ∈ binsData, containsPoint c lat lon := by
  rcases le_or_lt lon 119.475 with hA | hA
  · rcases le_or_lt lat 7 with hB | hB
    · exact cover_of bin23 bin23_mem lat lon
        (by simp only [bin23]; linarith) (by simp only [bin23]; linarith)
        (by simp only [bin23]; linarith) (by simp only [bin23]; linarith)
    · exact cover_of bin22 bin22_mem lat lon
        (by simp only [bin22]; linarith) (by simp only [bin22]; linarith)
        (by simp only [bin22]; linarith) (by simp only [bin22]; linarith)
  · rcases le_or_lt lat 7 with hB | hB
    · rcases le_or_lt lon 124.2375 with hC | hC
      · exact cover_of bin23 bin23_mem lat lon
          (by simp only [bin23]; linarith) (by simp only [bin23]; linarith)
          (by simp only [bin23]; linarith) (by simp only [bin23]; linarith)
      · rcases le_or_lt lon 125.825 with hD | hD
        · exact cover_of bin19 bin19_mem lat lon
            (by simp only [bin19]; linarith) (by simp only [bin19]; linarith)
            (by simp only [bin19]; linarith) (by simp only [bin19]; linarith)
        · rcases le_or_lt lon 127.4125 with hE | hE
          · rcases le_or_lt lat 4.5 with hF | hF
            · exact cover_of bin1 bin1_mem lat lon
                (by simp only [bin1]; linarith) (by simp only [bin1]; linarith)
                (by simp only [bin1]; linarith) (by simp only [bin1]; linarith)
            · exact cover_of bin3 bin3_mem lat lon
                (by simp only [bin3]; linarith) (by simp only [bin3]; linarith)
                (by simp only [bin3]; linarith) (by simp only [bin3]; linarith)
          · rcases le_or_lt lat 4.5 with hF | hF
            · exact cover_of bin2 bin2_mem lat lon
                (by simp only [bin2]; linarith) (by simp only [bin2]; linarith)
                (by simp only [bin2]; linarith) (by simp only [bin2]; linarith)
            · exact cover_of bin15 bin15_mem lat lon
                (by simp only [bin15]; linarith) (by simp only [bin15]; linarith)
                (by simp only [bin15]; linarith) (by simp only [bin15]; linarith)
    · rcases le_or_lt lat 12 with hC | hC
      · rcases le_or_lt lon 122.65 with hD | hD
        · exact cover_of bin0 bin0_mem lat lon
            (by simp only [bin0]; linarith) (by simp only [bin0]; linarith)
            (by simp only [bin0]; linarith) (by simp only [bin0]; linarith)
        · rcases le_or_lt lon 124.2375 with hE | hE
          · exact cover_of bin16 bin16_mem lat lon
              (by simp only [bin16]; linarith) (by simp only [bin16]; linarith)
              (by simp only [bin16]; linarith) (by simp only [bin16]; linarith)
          · rcases le_or_lt lon 125.825 with hF | hF
            · rcases le_or_lt lat 9.5 with hG | hG
              · exact cover_of bin4 bin4_mem lat lon
                  (by simp only [bin4]; linarith) (by simp only [bin4]; linarith)
                  (by simp only [bin4]; linarith) (by simp only [bin4]; linarith)
              · exact cover_of bin5 bin5_mem lat lon
                  (by simp only [bin5]; linarith) (by simp only [bin5]; linarith)
                  (by simp only [bin5]; linarith) (by simp only [bin5]; linarith)
            · rcases le_or_lt lat 9.5 with hG | hG
              · rcases le_or_lt lon 127.4125 with hH | hH
                · exact cover_of bin6 bin6_mem lat lon
                    (by simp only [bin6]; linarith) (by simp only [bin6]; linarith)
                    (by simp only [bin6]; linarith) (by simp only [bin6]; linarith)
                · exact cover_of bin15 bin15_mem lat lon
                    (by simp only [bin15]; linarith) (by simp only [bin15]; linarith)
                    (by simp only [bin15]; linarith) (by simp only [bin15]; linarith)
              · exact cover_of bin20 bin20_mem lat lon
                  (by simp only [bin20]; linarith) (by simp only [bin20]; linarith)
                  (by simp only [bin20]; linarith) (by simp only [bin20]; linarith)
      · rcases le_or_lt lat 14.5 with hD | hD
        · rcases le_or_lt lon 121.0625 with hE | hE
          · exact cover_of bin7 bin7_mem lat lon
              (by simp only [bin7]; linarith) (by simp only [bin7]; linarith)
              (by simp only [bin7]; linarith) (by simp only [bin7]; linarith)
          · rcases le_or_lt lon 124.2375 with hF | hF
            · exact cover_of bin17 bin17_mem lat lon
                (by simp only [bin17]; linarith) (by simp only [bin17]; linarith)
                (by simp only [bin17]; linarith) (by simp only [bin17]; linarith)
            · rcases le_or_lt lon 125.825 with hG | hG
              · exact cover_of bin14 bin14_mem lat lon
                  (by simp only [bin14]; linarith) (by simp only [bin14]; linarith)
                  (by simp only [bin14]; linarith) (by simp only [bin14]; linarith)
              · exact cover_of bin18 bin18_mem lat lon
                  (by simp only [bin18]; linarith) (by simp only [bin18]; linarith)
                  (by simp only [bin18]; linarith) (by simp only [bin18]; linarith)
        · rcases le_or_lt lon 121.0625 with hE | hE
          · rcases le_or_lt lat 17 with hF | hF
            · exact cover_of bin8 bin8_mem lat lon
                (by simp only [bin8]; linarith) (by simp only [bin8]; linarith)
                (by simp only [bin8]; linarith) (by simp only [bin8]; linarith)
            · rcases le_or_lt lat 19.5 with hG | hG
              · exact cover_of bin10 bin10_mem lat lon
                  (by simp only [bin10]; linarith) (by simp only [bin10]; linarith)
                  (by simp only [bin10]; linarith) (by simp only [bin10]; linarith)
              · exact cover_of bin12 bin12_mem lat lon
                  (by simp only [bin12]; linarith) (by simp only [bin12]; linarith)
                  (by simp only [bin12]; linarith) (by simp only [bin12]; linarith)
          · rcases le_or_lt lon 122.65 with hF | hF
            · rcases le_or_lt lat 17 with hG | hG
              · exact cover_of bin9 bin9_mem lat lon
                  (by simp only [bin9]; linarith) (by simp only [bin9]; linarith)
                  (by simp only [bin9]; linarith) (by simp only [bin9]; linarith)
              · rcases le_or_lt lat 19.5 with hH | hH
                · exact cover_of bin11 bin11_mem lat lon
                    (by simp only [bin11]; linarith) (by simp only [bin11]; linarith)
                    (by simp only [bin11]; linarith) (by simp only [bin11]; linarith)
                · exact cover_of bin13 bin13_mem lat lon
                    (by simp only [bin13]; linarith) (by simp only [bin13]; linarith)
                    (by simp only [bin13]; linarith) (by simp only [bin13]; linarith)
            · rcases le_or_lt lon 125.825 with hG | hG
              · exact cover_of bin21 bin21_mem lat lon
                  (by simp only [bin21]; linarith) (by simp only [bin21]; linarith)
                  (by simp only [bin21]; linarith) (by simp only [bin21]; linarith)
              · exact cover_of bin18 bin18_mem lat lon
                  (by simp only [bin18]; linarith) (by simp only [bin18]; linarith)
                  (by simp only [bin18]; linarith) (by simp only [bin18]; linarith)

/-- Claim C9: the static bin table leaves no gaps inside its overall
region — for every point of `[116.3, 129] × [2, 22]` at least one bin
contains it, so `assign` never returns Unassigned there. -/
theorem coverage_no_gaps (lat lon : ℚ) (h1 : 116.3 ≤ lon) (h2 : lon ≤ 129)
    (h3 : 2 ≤ lat) (h4 : lat ≤ 22) :
    assign lat lon ≠ none := by
  obtain ⟨b, hb, hc⟩ := exists_cover lat lon h1 h2 h3 h4
  have hmem : b ∈ matchingBins lat lon :=
    List.mem_filter.mpr ⟨hb, by rw [decide_eq_true_eq]; exact hc⟩
  unfold assign
  cases hE : matchingBins lat lon with
  | nil => rw [hE] at hmem; cases hmem
  | cons c cs => simp

/-- Witness for C9: `assign` is defined at the interior point
(lat 10, lon 120). -/
theorem coverage_no_gaps_witness : assign 10 120 ≠ none :=
  coverage_no_gaps 10 120 (by norm_num) (by norm_num) (by norm_num) (by norm_num)

/-- Claim C1: the risk classifier maps magnitudes to tiers by the fixed
ascending thresholds, inclusive on each lower bound: below 5.0 low, 5.0 to
5.9 medium, 6.0 to 6.9 high, 7.0 and above critical. -/
theorem classifyRisk_thresholds (m : ℚ) :
    (m < 5 → classifyRisk m = RiskLevel.low) ∧
    (5 ≤ m → m ≤ 5.9 → classifyRisk m = RiskLevel.medium) ∧
    (6 ≤ m → m ≤ 6.9 → classifyRisk m = RiskLevel.high) ∧
    (7 ≤ m → classifyRisk m = RiskLevel.critical) := by
  refine ⟨?_, ?_, ?_, ?_⟩
  · intro h
    unfold classifyRisk
    rw [if_pos h]
  · intro h h2
    unfold classifyRisk
    rw [if_neg (by linarith), if_pos (by linarith)]
  · intro h h2
    unfold classifyRisk
    rw [if_neg (by linarith), if_neg (by linarith), if_pos (by linarith)]
  · intro h
    unfold classifyRisk
    rw [if_neg (by linarith), if_neg (by linarith), if_neg (by linarith)]

/-- Witness for C1: the thresholds evaluated at the four magnitudes of the
mock rows in the Forecasting page. -/
theorem classifyRisk_thresholds_witness :
    classifyRisk 4.2 = RiskLevel.low ∧ classifyRisk 5.8 = RiskLevel.medium ∧
    classifyRisk 6.5 = RiskLevel.high ∧ classifyRisk 7.2 = RiskLevel.critical :=
  ⟨(classifyRisk_thresholds 4.2).1 (by norm_num),
   (classifyRisk_thresholds 5.8).2.1 (by norm_num) (by norm_num),
   (classifyRisk_thresholds 6.5).2.2.1 (by norm_num) (by norm_num),
   (classifyRisk_thresholds 7.2).2.2.2 (by norm_num)⟩

/-- Claim C5: a forecast request with a year outside the inclusive range
2020-2030 is rejected with the InvalidRequest outcome, never clamped, and
every year inside the range (the boundary years included) is accepted. -/
theorem yearSubmit_range (y : ℤ) :
    ((2020 ≤ y ∧ y ≤ 2030) → handleYearSubmit y = SubmitOutcome.accepted) ∧
    ((y < 2020 ∨ 2030 < y) → handleYearSubmit y = SubmitOutcome.invalidRequest) := by
  constructor
  · rintro ⟨hy1, hy2⟩
    unfold handleYearSubmit
    rw [if_pos ⟨by omega, hy1, hy2⟩]
  · intro h
    unfold handleYearSubmit
    rw [if_neg (by omega)]

/-- Witness for C5: both boundary years are accepted, the years just
outside are rejected. -/
theorem yearSubmit_range_witness :
    handleYearSubmit 2020 = SubmitOutcome.accepted ∧
    handleYearSubmit 2030 = SubmitOutcome.accepted ∧
    handleYearSubmit 2019 = SubmitOutcome.invalidRequest ∧
    handleYearSubmit 2031 = SubmitOutcome.invalidRequest :=
  ⟨(yearSubmit_range 2020).1 ⟨by norm_num, by norm_num⟩,
   (yearSubmit_range 2030).1 ⟨by norm_num, by norm_num⟩,
   (yearSubmit_range 2019).2 (Or.inl (by norm_num)),
   (yearSubmit_range 2031).2 (Or.inr (by norm_num))⟩

/-- The bin id of an aggregated record is the id of its bin, whatever the
model output and stats. -/
theorem recordForBin_bin_id (b : Bin) (p : Option Prediction) (s : HistStats) :
    (recordForBin b p s).bin_id = b.id := by
  cases p <;> rfl

/-- The ids of the registry, in order. -/
theorem binsData_ids : binsData.map (fun b => b.id) = List.range 24 := by
  with_unfolding_all decide

/-- Each registry id counts exactly one registry bin. -/
theorem binsData_count_ids :
    ∀ b ∈ binsData, binsData.countP (fun c => c.id == b.id) = 1 := by
  with_unfolding_all decide

/-- The registry is strictly ascending in ids. -/
theorem binsData_pairwise_ids : binsData.Pairwise (fun a b => a.id < b.id) := by
  have h := List.pairwise_lt_range 24
  rw [← binsData_ids, List.pairwise_map] at h
  exact h

/-- Claim C6: for every year inside the supported range, the forecast has
one record per registry bin — the record ids are exactly the registry ids,
each registry id occurs exactly once, and the records are ordered by
ascending bin id — whatever the model and the store report. -/
theorem forecast_one_record_per_bin (predict : Nat → ℤ → Option Prediction)
    (stats : Nat → ℤ → HistStats) (year : ℤ)
    (hy1 : 2020 ≤ year) (hy2 : year ≤ 2030) :
    (forecast predict stats year).length = binsData.length ∧
    (forecast predict stats year).map (fun r => r.bin_id) = binsData.map (fun b => b.id) ∧
    (∀ b ∈ binsData,
      ((forecast predict stats year).filter (fun r => r.bin_id == b.id)).length = 1) ∧
    (forecast predict stats year).Pairwise (fun r s => r.bin_id < s.bin_id) := by
  have hmap : (forecast predict stats year).map (fun r => r.bin_id)
      = binsData.map (fun b => b.id) := by
    unfold forecast
    rw [List.map_map]
    simp [Function.comp, recordForBin_bin_id]
  refine ⟨?_, hmap, ?_, ?_⟩
  · unfold forecast
    rw [List.length_map]
  · intro b hb
    rw [← List.countP_eq_length_filter]
    unfold forecast
    rw [List.countP_map]
    have he : ((fun r : ForecastRecord => r.bin_id == b.id) ∘
        (fun c => recordForBin c (predict c.id year) (stats c.id year)))
        = fun c => c.id == b.id := by
      funext c
      simp [Function.comp, recordForBin_bin_id]
    rw [he]
    exact binsData_count_ids b hb
  · unfold forecast
    rw [List.pairwise_map]
    refine binsData_pairwise_ids.imp ?_
    intro a c hac
    simpa [recordForBin_bin_id] using hac

/-- Witness for C6: the per-bin record shape evaluated with an absent model
and an empty store at year 2024. -/
theorem forecast_one_record_per_bin_witness :
    (forecast (fun _ _ => none) (fun _ _ => ⟨none, 0⟩) 2024).length = binsData.length ∧
    (forecast (fun _ _ => none) (fun _ _ => ⟨none, 0⟩) 2024).map (fun r => r.bin_id)
      = binsData.map (fun b => b.id) ∧
    (∀ b ∈ binsData,
      ((forecast (fun _ _ => none) (fun _ _ => ⟨none, 0⟩) 2024).filter
        (fun r => r.bin_id == b.id)).length = 1) ∧
    (forecast (fun _ _ => none) (fun _ _ => ⟨none, 0⟩) 2024).Pairwise
      (fun r s => r.bin_id < s.bin_id) :=
  forecast_one_record_per_bin (fun _ _ => none) (fun _ _ => ⟨none, 0⟩) 2024
    (by norm_num) (by norm_num)

/-- Claim C7: when the forecasting-model collaborator fails or times out
(`predict` returns `none`), the forecast still produces a per-bin result by
degrading to historical-stats-only output: with the model entirely absent
the forecast equals the historical-only output; with any model the batch is
never aborted (one record per bin is always produced, and the return type
carries no failure case to surface upstream errors to the caller); and a
bin whose prediction failed gets exactly its historical-only record. -/
theorem forecast_degrades (predict : Nat → ℤ → Option Prediction)
    (stats : Nat → ℤ → HistStats) (year : ℤ) :
    forecast (fun _ _ => none) stats year = historicalForecast stats year ∧
    (forecast predict stats year).length = binsData.length ∧
    (∀ b ∈ binsData, predict b.id year = none →
      recordForBin b none (stats b.id year) ∈ forecast predict stats year) := by
  refine ⟨rfl, ?_, ?_⟩
  · unfold forecast
    rw [List.length_map]
  · intro b hb hfail
    unfold forecast
    refine List.mem_map.mpr ⟨b, hb, ?_⟩
    rw [hfail]

/-- Witness for C7: the degraded path evaluated with an always-failing
model and an empty store at year 2024, at bin 0. -/
theorem forecast_degrades_witness :
    forecast (fun _ _ => none) (fun _ _ => ⟨none, 0⟩) 2024
      = historicalForecast (fun _ _ => ⟨none, 0⟩) 2024 ∧
    (forecast (fun _ _ => none) (fun _ _ => ⟨none, 0⟩) 2024).length = binsData.length ∧
    recordForBin bin0 none ⟨none, 0⟩
      ∈ forecast (fun _ _ => none) (fun _ _ => ⟨none, 0⟩) 2024 :=
  ⟨(forecast_degrades (fun _ _ => none) (fun _ _ => ⟨none, 0⟩) 2024).1,
   (forecast_degrades (fun _ _ => none) (fun _ _ => ⟨none, 0⟩) 2024).2.1,
   (forecast_degrades (fun _ _ => none) (fun _ _ => ⟨none, 0⟩) 2024).2.2 bin0
     (by simp [binsData]) rfl⟩

end EqForecast
